import Mathlib

/-!
# Verification of the Express starter app (`src/app.js`)

A shallow embedding of the request-handling surface of the Express starter
application. Each route handler in `src/app.js` is translated into a pure
Lean function over explicit request data; JSON response bodies are modelled
by an inductive `Json` type; the external collaborators (Node's `path`
module, the `multer` upload middleware, the `axios` HTTP client) are
modelled by their documented contracts, with the outcome of outbound HTTP
calls passed in as an explicit `Except` parameter.
-/

namespace ExpressApp

/-- JSON values, used to model the bodies built by `res.json(...)`. -/
inductive Json where
  | str : String → Json
  | num : Int → Json
  | bool : Bool → Json
  | null : Json
  | arr : List Json → Json
  | obj : List (String × Json) → Json

/-- Field lookup in a JSON object (`body.field` on the client side). -/
def lookupField : List (String × Json) → String → Option Json
  | [], _ => none
  | (k, v) :: rest, key => if k = key then some v else lookupField rest key

/-- `j.lookup key` is the value of field `key` when `j` is an object. -/
def Json.lookup (j : Json) (key : String) : Option Json :=
  match j with
  | .obj fields => lookupField fields key
  | _ => none

/-- A response body: `res.send` of plain text, `res.json` of a JSON value,
or `res.sendFile` of a file path. -/
inductive Body where
  | text : String → Body
  | json : Json → Body
  | file : String → Body

/-- An HTTP response as produced by a handler. `res.send`/`res.json` without
an explicit `res.status(...)` call leave Express's default status 200. -/
structure Response where
  status : Nat
  body : Body

/-! ## Simple GET routes (src/app.js lines 29-50) -/

/-- Handler for `GET /` (src/app.js line 29): `res.send("Goodbye world!")`. -/
def rootHandler : Response :=
  { status := 200, body := .text "Goodbye world!" }

/-- Handler for `GET /html-example` (src/app.js line 34):
`res.sendFile("/public/some-page.html", { root: __dirname })`. -/
def htmlExampleHandler : Response :=
  { status := 200, body := .file "/public/some-page.html" }

/-- Handler for `GET /json-example` (src/app.js lines 39-50): builds the
fixed object and sends it with `res.json(body)`. -/
def jsonExampleHandler : Response :=
  { status := 200
    body := .json (.obj
      [("title", .str "Hello!"),
       ("heading", .str "Hello!"),
       ("message", .str "Welcome to this JSON document, served up by Express"),
       ("imagePath", .str "/static/images/donkey.jpg")]) }

/-! ## The middleware chain for `/middleware-example` (src/app.js lines 53-76)

The request-scoped auxiliary field is `res.addedStuff`, which is `undefined`
before any middleware runs; we model it as `Option String`. -/

/-- JavaScript string conversion of a possibly-`undefined` value, as it
occurs when an `undefined` variable meets string concatenation. -/
def jsToString : Option String → String
  | some s => s
  | none => "undefined"

/-- JavaScript truthiness of a possibly-`undefined` string: `undefined` and
the empty string are falsy. -/
def jsTruthy : Option String → Bool
  | some s => s ≠ ""
  | none => false

/-- First middleware (src/app.js lines 53-58):
`res.addedStuff = "First middleware function run!"`. -/
def firstMiddleware (_addedStuff : Option String) : Option String :=
  some "First middleware function run!"

/-- Second middleware (src/app.js lines 61-66):
`res.addedStuff += " Second middleware function run!"` (JavaScript `+=`
turns an `undefined` left operand into the string "undefined"). -/
def secondMiddleware (addedStuff : Option String) : Option String :=
  some (jsToString addedStuff ++ " Second middleware function run!")

/-- Handler for `GET /middleware-example` (src/app.js lines 69-76): sends
`res.addedStuff` when truthy, else the fallback message. -/
def middlewareExampleHandler (addedStuff : Option String) : Response :=
  { status := 200
    body := .text (if jsTruthy addedStuff
      then jsToString addedStuff
      else "Sorry, the middleware did not work!") }

/-- Full processing of `GET /middleware-example`: both registered
middleware functions run in registration order (each calls `next()`),
starting from an `undefined` `res.addedStuff`, then the handler runs. -/
def middlewareExampleResponse : Response :=
  middlewareExampleHandler (secondMiddleware (firstMiddleware none))

/-! ## `POST /post-example` (src/app.js lines 79-92) -/

/-- The decoded url-encoded form fields read by the `/post-example`
handler; absent fields are `undefined` in JavaScript, hence `Option`. -/
structure PostForm where
  your_name : Option String
  your_email : Option String
  agree : Option String
deriving DecidableEq

/-- JSON rendering of a field value that may be `undefined`. In a
`res.json` body, `undefined` fields are dropped by `JSON.stringify`;
defined string fields render as JSON strings. -/
def optStrJson : Option String → Json
  | some s => .str s
  | none => .null

/-- Handler for `POST /post-example` (src/app.js lines 79-92): echoes the
three form fields inside `your_data` with a fixed status and message. -/
def postExampleHandler (body : PostForm) : Response :=
  { status := 200
    body := .json (.obj
      [("status", .str "amazing success!"),
       ("message", .str "congratulations on sending us this data!"),
       ("your_data", .obj
         [("name", optStrJson body.your_name),
          ("email", optStrJson body.your_email),
          ("agree", optStrJson body.agree)])]) }

/-! ## Node's `path` module (external collaborator)

`src/app.js` lines 101-105 call `path.extname` and `path.basename`. These
are Node builtins, modelled here from their documented posix semantics on
character lists. -/

/-- Index of the last `'.'` in a list of characters, if any. -/
def lastDot : List Char → Option Nat
  | [] => none
  | c :: cs =>
    match lastDot cs with
    | some i => some (i + 1)
    | none => if c = '.' then some 0 else none

/-- The last `'/'`-separated portion of a path: the part `path.basename`
and `path.extname` operate on. -/
def lastPortionChars (p : List Char) : List Char :=
  (List.splitOn '/' p).getLastD []

/-- `path.extname` on the final path portion: the substring from the last
`'.'`, except that a name with no dot, or whose only dot is its leading
character (a hidden file such as `.bashrc`), has no extension. -/
def extnameChars (b : List Char) : List Char :=
  match lastDot b with
  | none => []
  | some 0 => []
  | some (i + 1) => b.drop (i + 1)

/-- `path.basename(p, ext)` on the final path portion: strips `ext` when it
is a nonempty proper suffix of the portion (Node keeps the name whole when
`ext` equals the entire portion). -/
def basenameExtChars (b ext : List Char) : List Char :=
  if ext ≠ [] ∧ ext ≠ b ∧ b.drop (b.length - ext.length) = ext then
    b.take (b.length - ext.length)
  else b

/-- `path.extname` on strings. -/
def pathExtname (p : String) : String :=
  ⟨extnameChars (lastPortionChars p.data)⟩

/-- `path.basename(p, ext)` on strings. -/
def pathBasename (p ext : String) : String :=
  ⟨basenameExtChars (lastPortionChars p.data) ext.data⟩

/-! ## The multer disk storage engine (src/app.js lines 94-112) -/

/-- The `destination` callback (src/app.js lines 96-98): every file goes to
the fixed directory `public/uploads`. -/
def multerDestination : String := "public/uploads"

/-- The `filename` callback (src/app.js lines 99-110): take the uploaded
file's name apart and rebuild it with `Date.now()` (modelled as the `ts`
argument) between basename and extension. -/
def multerFilename (originalname : String) (ts : Nat) : String :=
  let extension := pathExtname originalname
  let basenameWithoutExtension := pathBasename originalname extension
  basenameWithoutExtension ++ "-" ++ toString ts ++ extension

/-- An incoming multipart file before storage: its client-supplied name and
size. File content is irrelevant to every route contract. -/
structure RawFile where
  originalname : String
  size : Nat
deriving DecidableEq

/-- A multer file descriptor as it appears in `req.files` after the disk
storage engine ran (the fields the upload response exposes). -/
structure UploadedFile where
  fieldname : String
  originalname : String
  destination : String
  filename : String
  size : Nat
deriving DecidableEq

/-- Storage of one incoming file by the `diskStorage` engine of
src/app.js lines 95-112. -/
def storeFile (ts : Nat) (f : RawFile) : UploadedFile :=
  { fieldname := "my_files"
    originalname := f.originalname
    destination := multerDestination
    filename := multerFilename f.originalname ts
    size := f.size }

/-- JSON rendering of a stored file descriptor inside the success body. -/
def UploadedFile.toJson (f : UploadedFile) : Json :=
  .obj [("fieldname", .str f.fieldname),
        ("originalname", .str f.originalname),
        ("destination", .str f.destination),
        ("filename", .str f.filename),
        ("size", .num f.size)]

/-- Errors raised by the multer middleware itself. -/
inductive MulterError where
  | LIMIT_UNEXPECTED_FILE : MulterError
deriving DecidableEq

/-- The `upload.array("my_files", 3)` middleware invoked at src/app.js
line 115. `multer` is an external dependency, modelled from its documented
contract for `array(field, maxCount)`: each incoming file for the field is
stored through the configured `diskStorage` engine and `req.files` receives
the resulting descriptors; when more than `maxCount` files arrive, the
middleware aborts with a `LIMIT_UNEXPECTED_FILE` error handed to Express's
error-handling chain (removing any files it had already stored), and the
route handler never runs. -/
def multerArrayMyFiles (maxCount : Nat) (incoming : List RawFile) (ts : Nat) :
    Except MulterError (List UploadedFile) :=
  if incoming.length > maxCount then .error .LIMIT_UNEXPECTED_FILE
  else .ok (incoming.map (storeFile ts))

/-! ## `POST /upload-example` (src/app.js lines 115-141) -/

/-- The failure body sent on both rejection branches of the handler. -/
def uploadFailureJson : Json :=
  .obj [("status", .str "you fail!!!"),
        ("message", .str "rejected your files... try harder")]

/-- The success body: fixed status and message plus `req.files`. -/
def uploadSuccessJson (files : List UploadedFile) : Json :=
  .obj [("status", .str "all good"),
        ("message", .str "files were uploaded!!!"),
        ("files", .arr (files.map UploadedFile.toJson))]

/-- The `/upload-example` route handler (src/app.js lines 115-141), taking
`req.files` as the multer middleware left it (`none` models `undefined`).
The branch structure mirrors the source: `!req.files || req.files.length
== 0` fails, then `req.files.length > 3` fails, else success. Every branch
answers via plain `res.json`, hence status 200. -/
def uploadExampleHandler (files : Option (List UploadedFile)) : Response :=
  match files with
  | none => { status := 200, body := .json uploadFailureJson }
  | some fs =>
    if fs.length = 0 then { status := 200, body := .json uploadFailureJson }
    else if fs.length > 3 then { status := 200, body := .json uploadFailureJson }
    else { status := 200, body := .json (uploadSuccessJson fs) }

/-- Full processing of `POST /upload-example`: the multer middleware runs
first; only if it succeeds does the handler run, on the `req.files` it
produced. A multer error surfaces on Express's error path instead of a
handler response. -/
def uploadExamplePipeline (incoming : List RawFile) (ts : Nat) :
    Except MulterError Response :=
  match multerArrayMyFiles 3 incoming ts with
  | .error e => .error e
  | .ok files => .ok (uploadExampleHandler (some files))

/-! ## The axios-backed routes (src/app.js lines 144-193)

The outbound HTTP call is an external collaborator: it is passed in as a
function from the requested URL to `Except err data`, where a thrown
`axios` error is modelled as the raw JSON-serializable error object. -/

/-- The two environment variables read via `process.env`; an unset variable
is `undefined`. -/
structure Env where
  API_BASE_URL : Option String
  API_SECRET_KEY : Option String
deriving DecidableEq

/-- The URL built by the template literal at src/app.js line 157
(JavaScript renders an `undefined` variable as the string "undefined"). -/
def dotenvUrl (env : Env) : String :=
  jsToString env.API_BASE_URL ++ "?key=" ++ jsToString env.API_SECRET_KEY ++ "&num=10"

/-- The setup-instructions message of the catch branch at
src/app.js lines 161-164. -/
def dotenvErrorMessage : String :=
  "Oops... In order to use the dotenv module, you must first make a file named .env on your server - see the .env.example file for example."

/-- The JSON error body of the `/dotenv-example` catch branch. -/
def dotenvFailureJson : Json :=
  .obj [("success", .bool false), ("error", .str dotenvErrorMessage)]

/-- The `GET /dotenv-example` route (src/app.js lines 153-166): awaits the
upstream call inside `try`; forwards `response.data` on success, and any
thrown error lands in the `catch` branch, answering with the fixed JSON
error body. -/
def dotenvExampleRoute (env : Env) (fetch : String → Except Json Json) : Response :=
  match fetch (dotenvUrl env) with
  | .ok data => { status := 200, body := .json data }
  | .error _ => { status := 200, body := .json dotenvFailureJson }

/-- The URL built by the template literal at src/app.js line 176: the
`animalId` path parameter is appended as the `id` query parameter. -/
def parameterUrl (env : Env) (animalId : String) : String :=
  jsToString env.API_BASE_URL ++ "?key=" ++ jsToString env.API_SECRET_KEY
    ++ "&num=1&id=" ++ animalId

/-- The `GET /parameter-example/:animalId` route (src/app.js lines
171-193): on upstream success builds the `wonderful` response around
`req.params.animalId` and the upstream data; on failure sends the raw
error object as JSON. -/
def parameterExampleRoute (env : Env) (animalId : String)
    (fetch : String → Except Json Json) : Response :=
  match fetch (parameterUrl env animalId) with
  | .ok data =>
    { status := 200
      body := .json (.obj
        [("status", .str "wonderful"),
         ("message", .str ("Imagine we got the data from the API for animal #" ++ animalId)),
         ("animalId", .str animalId),
         ("animal", data)]) }
  | .error err => { status := 200, body := .json err }

/-! ## Server state across requests

The only state this application can mutate between requests is the upload
directory; every GET handler above neither reads nor writes it. -/

/-- Observable server-side state: the contents of `public/uploads`. -/
structure ServerState where
  uploads : List UploadedFile
deriving DecidableEq

/-- The four static GET routes of src/app.js lines 29-76. -/
inductive GetRoute where
  | root
  | htmlExample
  | jsonExample
  | middlewareExample
deriving DecidableEq

/-- Processing one GET request against the current server state: each of
these handlers only calls `res.send`/`res.json`/`res.sendFile`, touching no
server-side state. -/
def runGet : GetRoute → ServerState → Response × ServerState
  | .root, s => (rootHandler, s)
  | .htmlExample, s => (htmlExampleHandler, s)
  | .jsonExample, s => (jsonExampleHandler, s)
  | .middlewareExample, s => (middlewareExampleResponse, s)

/-- Processing one `POST /upload-example` against the current server state:
on success the stored files join the upload directory; on a multer error
the middleware removes what it had stored, leaving the state unchanged. -/
def runUpload (incoming : List RawFile) (ts : Nat) (s : ServerState) :
    Except MulterError Response × ServerState :=
  match multerArrayMyFiles 3 incoming ts with
  | .error e => (.error e, s)
  | .ok files => (.ok (uploadExampleHandler (some files)),
                  { uploads := s.uploads ++ files })

/-! ## Helper lemmas about the `path` model -/

/-- The index returned by `lastDot` is a valid index of the list. -/
theorem lastDot_lt_length (l : List Char) : ∀ i, lastDot l = some i → i < l.length := by
  induction l with
  | nil => intro i h; exact absurd h (by simp [lastDot])
  | cons c cs ih =>
    intro i h
    unfold lastDot at h
    cases hcs : lastDot cs with
    | some j =>
      rw [hcs] at h
      injection h with h
      subst h
      exact Nat.succ_lt_succ (ih j hcs)
    | none =>
      rw [hcs] at h
      by_cases hc : c = '.'
      · rw [if_pos hc] at h
        injection h with h
        subst h
        exact Nat.succ_pos _
      · rw [if_neg hc] at h
        exact absurd h (by simp)

/-- Splitting a name at its extension loses nothing: the basename computed
with respect to the name's own extension, followed by that extension, is
the name again. -/
theorem basenameExt_append_extname (b : List Char) :
    basenameExtChars b (extnameChars b) ++ extnameChars b = b := by
  cases hd : lastDot b with
  | none => simp [extnameChars, hd, basenameExtChars]
  | some i =>
    cases i with
    | zero => simp [extnameChars, hd, basenameExtChars]
    | succ j =>
      have hlt : j + 1 < b.length := lastDot_lt_length b (j + 1) hd
      have hlen : (b.drop (j + 1)).length = b.length - (j + 1) := List.length_drop _ _
      have hne : b.drop (j + 1) ≠ [] := by
        intro hnil
        rw [List.drop_eq_nil_iff] at hnil
        omega
      have hneb : b.drop (j + 1) ≠ b := by
        intro heq
        have := congrArg List.length heq
        rw [hlen] at this
        omega
      have hidx : b.length - (b.drop (j + 1)).length = j + 1 := by rw [hlen]; omega
      simp only [extnameChars, hd]
      unfold basenameExtChars
      rw [if_pos ⟨hne, hneb, by rw [hidx]⟩, hidx]
      exact List.take_append_drop _ _

/-- String-level version: the stored basename-without-extension and the
extension together reconstitute the final portion of the original name. -/
theorem pathBasename_append_pathExtname (p : String) :
    pathBasename p (pathExtname p) ++ pathExtname p
      = (⟨lastPortionChars p.data⟩ : String) :=
  congrArg String.mk (basenameExt_append_extname (lastPortionChars p.data))

/-! ## The claims -/

/-- C10: every GET request to the root route `/`, whatever the server
state, is answered with status 200 and the exact body "Goodbye world!". -/
theorem C10_root_route (s : ServerState) :
    (runGet .root s).1.status = 200 ∧
    (runGet .root s).1.body = .text "Goodbye world!" :=
  ⟨rfl, rfl⟩

/-- C9: a GET to `/json-example` is answered with status 200 and a JSON
body whose `title` field is "Hello!" and whose `imagePath` field is
"/static/images/donkey.jpg", the full body being the fixed four-field
object. -/
theorem C9_json_example :
    jsonExampleHandler.status = 200 ∧
    ∃ j, jsonExampleHandler.body = .json j ∧
      j.lookup "title" = some (.str "Hello!") ∧
      j.lookup "imagePath" = some (.str "/static/images/donkey.jpg") ∧
      j = .obj
        [("title", .str "Hello!"),
         ("heading", .str "Hello!"),
         ("message", .str "Welcome to this JSON document, served up by Express"),
         ("imagePath", .str "/static/images/donkey.jpg")] :=
  ⟨rfl,
   .obj
     [("title", .str "Hello!"),
      ("heading", .str "Hello!"),
      ("message", .str "Welcome to this JSON document, served up by Express"),
      ("imagePath", .str "/static/images/donkey.jpg")],
   rfl, rfl, rfl, rfl⟩

/-- C5: on a GET to `/middleware-example`, the two middleware functions
run in registration order before the handler, so the body is the first
marker string followed by the second; were the auxiliary field untouched,
the handler would answer with the fallback message instead. -/
theorem C5_middleware_chain :
    middlewareExampleResponse.status = 200 ∧
    middlewareExampleResponse.body =
      .text ("First middleware function run!" ++ " Second middleware function run!") ∧
    middlewareExampleResponse =
      middlewareExampleHandler (secondMiddleware (firstMiddleware none)) ∧
    middlewareExampleHandler none =
      { status := 200, body := .text "Sorry, the middleware did not work!" } :=
  ⟨rfl, rfl, rfl, rfl⟩

/-- C6: a POST to `/post-example` with the three form fields present is
answered with a JSON body whose `status` is "amazing success!" and whose
`your_data` object echoes the three decoded strings unchanged. -/
theorem C6_post_example_echo (name email agree : String) :
    (postExampleHandler ⟨some name, some email, some agree⟩).status = 200 ∧
    ∃ j, (postExampleHandler ⟨some name, some email, some agree⟩).body = .json j ∧
      j.lookup "status" = some (.str "amazing success!") ∧
      j.lookup "your_data" = some (.obj
        [("name", .str name), ("email", .str email), ("agree", .str agree)]) :=
  ⟨rfl,
   .obj
     [("status", .str "amazing success!"),
      ("message", .str "congratulations on sending us this data!"),
      ("your_data", .obj
        [("name", .str name), ("email", .str email), ("agree", .str agree)])],
   rfl, rfl, rfl⟩

/-- C8: the four static GET routes are idempotent and deterministic: no
call mutates the server state, and the response does not depend on the
state, so repeated calls give byte-identical responses. -/
theorem C8_get_idempotent (r : GetRoute) (s : ServerState) :
    (runGet r s).2 = s ∧
    (runGet r (runGet r s).2).1 = (runGet r s).1 ∧
    ∀ s2, (runGet r s2).1 = (runGet r s).1 := by
  cases r <;> exact ⟨rfl, rfl, fun _ => rfl⟩

/-- C3: a GET to `/dotenv-example` forwards the upstream body unmodified on
success; on any failure of the upstream call — including one caused by
absent environment variables, which only garble the requested URL — the
catch branch answers with the fixed `{success: false, error: ...}` body;
in every case a 200 JSON response is produced, never an unhandled crash. -/
theorem C3_dotenv_example (env : Env) (fetch : String → Except Json Json) :
    (∀ data, fetch (dotenvUrl env) = .ok data →
      dotenvExampleRoute env fetch = { status := 200, body := .json data }) ∧
    (∀ err, fetch (dotenvUrl env) = .error err →
      dotenvExampleRoute env fetch = { status := 200, body := .json dotenvFailureJson }) ∧
    (dotenvExampleRoute env fetch).status = 200 ∧
    (∃ j, (dotenvExampleRoute env fetch).body = .json j) := by
  refine ⟨fun data h => ?_, fun err h => ?_, ?_, ?_⟩
  · unfold dotenvExampleRoute
    rw [h]
  · unfold dotenvExampleRoute
    rw [h]
  · unfold dotenvExampleRoute
    cases fetch (dotenvUrl env) <;> rfl
  · unfold dotenvExampleRoute
    cases h : fetch (dotenvUrl env) with
    | ok data => exact ⟨data, rfl⟩
    | error err => exact ⟨dotenvFailureJson, rfl⟩

/-- C3 witness: a concrete successful upstream call is forwarded, and with
both environment variables absent a concrete failing upstream call yields
the documented error body. -/
theorem C3_dotenv_example_witness :
    dotenvExampleRoute ⟨some "https://api.example", some "sk"⟩ (fun _ => .ok (.str "animals"))
      = { status := 200, body := .json (.str "animals") } ∧
    dotenvExampleRoute ⟨none, none⟩ (fun _ => .error .null)
      = { status := 200, body := .json dotenvFailureJson } :=
  ⟨(C3_dotenv_example ⟨some "https://api.example", some "sk"⟩
      (fun _ => .ok (.str "animals"))).1 (.str "animals") rfl,
   (C3_dotenv_example ⟨none, none⟩ (fun _ => .error .null)).2.1 .null rfl⟩

/-- C4: a GET to `/parameter-example/:animalId` whose upstream call
succeeds is answered 200 with exactly the `wonderful` shape, its
`animalId` field the extracted path parameter; the path parameter reaches
the upstream API as the `id` query parameter; and on upstream failure the
raw error object is sent back as JSON. -/
theorem C4_parameter_example (env : Env) (animalId : String)
    (fetch : String → Except Json Json) :
    (∀ data, fetch (parameterUrl env animalId) = .ok data →
      parameterExampleRoute env animalId fetch =
        { status := 200
          body := .json (.obj
            [("status", .str "wonderful"),
             ("message", .str ("Imagine we got the data from the API for animal #" ++ animalId)),
             ("animalId", .str animalId),
             ("animal", data)]) }) ∧
    (∃ p, parameterUrl env animalId = p ++ ("&id=" ++ animalId)) ∧
    (∀ err, fetch (parameterUrl env animalId) = .error err →
      parameterExampleRoute env animalId fetch = { status := 200, body := .json err }) := by
  refine ⟨fun data h => ?_, ?_, fun err h => ?_⟩
  · unfold parameterExampleRoute
    rw [h]
  · refine ⟨jsToString env.API_BASE_URL ++ "?key=" ++ jsToString env.API_SECRET_KEY
      ++ "&num=1", ?_⟩
    have hsplit : ("&num=1&id=" : String) = "&num=1" ++ "&id=" := rfl
    simp only [parameterUrl, hsplit, String.append_assoc]
  · unfold parameterExampleRoute
    rw [h]

/-- C4 witness: at a concrete environment, path parameter and upstream
outcome, the success shape, the forwarded `id` query parameter, and the
raw-error forwarding are all realized. -/
theorem C4_parameter_example_witness :
    parameterExampleRoute ⟨some "https://api.example", some "sk"⟩ "17"
        (fun _ => .ok (.str "lion")) =
      { status := 200
        body := .json (.obj
          [("status", .str "wonderful"),
           ("message", .str ("Imagine we got the data from the API for animal #" ++ "17")),
           ("animalId", .str "17"),
           ("animal", .str "lion")]) } ∧
    (∃ p, parameterUrl ⟨some "https://api.example", some "sk"⟩ "17" = p ++ ("&id=" ++ "17")) ∧
    parameterExampleRoute ⟨some "https://api.example", some "sk"⟩ "17"
        (fun _ => .error (.str "boom")) =
      { status := 200, body := .json (.str "boom") } :=
  ⟨(C4_parameter_example ⟨some "https://api.example", some "sk"⟩ "17"
      (fun _ => .ok (.str "lion"))).1 (.str "lion") rfl,
   (C4_parameter_example ⟨some "https://api.example", some "sk"⟩ "17"
      (fun _ => .ok (.str "lion"))).2.1,
   (C4_parameter_example ⟨some "https://api.example", some "sk"⟩ "17"
      (fun _ => .error (.str "boom"))).2.2 (.str "boom") rfl⟩

/-- C7: every file the multer middleware accepts is stored in the fixed
directory `public/uploads` under the name
`<original-basename>-<timestamp><original-extension>`; basename and
extension are cut from the original name, so together they reconstitute
it. -/
theorem C7_stored_filename (incoming : List RawFile) (ts : Nat)
    (files : List UploadedFile)
    (h : multerArrayMyFiles 3 incoming ts = .ok files) :
    ∀ f ∈ files,
      f.destination = "public/uploads" ∧
      f.filename = pathBasename f.originalname (pathExtname f.originalname)
        ++ "-" ++ toString ts ++ pathExtname f.originalname ∧
      pathBasename f.originalname (pathExtname f.originalname)
          ++ pathExtname f.originalname
        = (⟨lastPortionChars f.originalname.data⟩ : String) := by
  have hfiles : files = incoming.map (storeFile ts) := by
    unfold multerArrayMyFiles at h
    by_cases hlen : incoming.length > 3
    · rw [if_pos hlen] at h
      exact absurd h (by simp)
    · rw [if_neg hlen] at h
      injection h with h
      exact h.symm
  subst hfiles
  intro f hf
  obtain ⟨raw, _, hraw⟩ := List.mem_map.mp hf
  subst hraw
  exact ⟨rfl, rfl, pathBasename_append_pathExtname _⟩

/-- C7 witness: a concrete accepted upload of `donkey.jpg` at timestamp 5
is stored in `public/uploads` as `donkey-5.jpg`. -/
theorem C7_stored_filename_witness :
    (storeFile 5 ⟨"donkey.jpg", 99⟩).destination = "public/uploads" ∧
    (storeFile 5 ⟨"donkey.jpg", 99⟩).filename = "donkey-5.jpg" ∧
    (storeFile 5 ⟨"donkey.jpg", 99⟩).filename =
      pathBasename "donkey.jpg" (pathExtname "donkey.jpg") ++ "-" ++ toString 5
        ++ pathExtname "donkey.jpg" := by
  have h := C7_stored_filename [⟨"donkey.jpg", 99⟩] 5
    [storeFile 5 ⟨"donkey.jpg", 99⟩] rfl
    (storeFile 5 ⟨"donkey.jpg", 99⟩) (List.mem_singleton.mpr rfl)
  exact ⟨h.1, by decide, h.2.1⟩

/-- C2: the multer middleware `upload.array("my_files", 3)` only ever hands
the handler a `req.files` of length at most 3, so the handler's branch
guarded by `req.files.length > 3` is unreachable; a request carrying more
than 3 files is aborted by the middleware with `LIMIT_UNEXPECTED_FILE` and
never receives any handler response, in particular not the failure JSON. -/
theorem C2_multer_caps_files (incoming : List RawFile) (ts : Nat) :
    (∀ files, multerArrayMyFiles 3 incoming ts = .ok files → files.length ≤ 3) ∧
    (incoming.length > 3 →
      uploadExamplePipeline incoming ts = .error .LIMIT_UNEXPECTED_FILE ∧
      ∀ r, uploadExamplePipeline incoming ts ≠ .ok r) := by
  constructor
  · intro files h
    unfold multerArrayMyFiles at h
    by_cases hlen : incoming.length > 3
    · rw [if_pos hlen] at h
      exact absurd h (by simp)
    · rw [if_neg hlen] at h
      injection h with h
      subst h
      rw [List.length_map]
      omega
  · intro hlen
    have hpipe : uploadExamplePipeline incoming ts = .error .LIMIT_UNEXPECTED_FILE := by
      unfold uploadExamplePipeline multerArrayMyFiles
      rw [if_pos hlen]
    exact ⟨hpipe, fun r hr => by rw [hpipe] at hr; exact Except.noConfusion hr⟩

/-- C2 witness: a concrete one-file request reaches the handler with at
most 3 stored files, and a concrete four-file request is aborted by the
middleware. -/
theorem C2_multer_caps_files_witness :
    [storeFile 4 ⟨"a.txt", 1⟩].length ≤ 3 ∧
    uploadExamplePipeline [⟨"a.txt", 1⟩, ⟨"b.txt", 1⟩, ⟨"c.txt", 1⟩, ⟨"d.txt", 1⟩] 4
      = .error .LIMIT_UNEXPECTED_FILE :=
  ⟨(C2_multer_caps_files [⟨"a.txt", 1⟩] 4).1 [storeFile 4 ⟨"a.txt", 1⟩] rfl,
   ((C2_multer_caps_files [⟨"a.txt", 1⟩, ⟨"b.txt", 1⟩, ⟨"c.txt", 1⟩, ⟨"d.txt", 1⟩] 4).2
     (by decide)).1⟩

/-- C1 counterexample: a concrete POST of four files to `/upload-example`
is not answered with the failure JSON body at status 200 — the multer
middleware aborts the request before the handler can run, so the claim as
stated fails for the more-than-3 case. -/
theorem C1_upload_policy_counterexample :
    uploadExamplePipeline [⟨"a.png", 1⟩, ⟨"b.png", 1⟩, ⟨"c.png", 1⟩, ⟨"d.png", 1⟩] 9
      = .error .LIMIT_UNEXPECTED_FILE ∧
    uploadExamplePipeline [⟨"a.png", 1⟩, ⟨"b.png", 1⟩, ⟨"c.png", 1⟩, ⟨"d.png", 1⟩] 9
      ≠ .ok { status := 200, body := .json uploadFailureJson } :=
  ⟨rfl, fun h => Except.noConfusion h⟩

/-- C1 amended: a POST to `/upload-example` with zero files is answered
with the failure JSON at status 200; with 1 to 3 files it is answered with
the success JSON at status 200 listing exactly that many file descriptors;
with more than 3 files the multer middleware aborts the request with an
error before the handler runs, so no failure JSON (and no HTTP 200 handler
response) is produced. -/
theorem C1_upload_policy (incoming : List RawFile) (ts : Nat) :
    (incoming.length = 0 →
      uploadExamplePipeline incoming ts =
        .ok { status := 200, body := .json uploadFailureJson }) ∧
    (1 ≤ incoming.length → incoming.length ≤ 3 →
      ∃ files, files.length = incoming.length ∧
        uploadExamplePipeline incoming ts =
          .ok { status := 200, body := .json (uploadSuccessJson files) }) ∧
    (incoming.length > 3 →
      uploadExamplePipeline incoming ts = .error .LIMIT_UNEXPECTED_FILE) := by
  have hok : ¬ incoming.length > 3 →
      uploadExamplePipeline incoming ts
        = .ok (uploadExampleHandler (some (incoming.map (storeFile ts)))) := by
    intro hle
    unfold uploadExamplePipeline multerArrayMyFiles
    rw [if_neg hle]
  refine ⟨fun h0 => ?_, fun h1 h3 => ?_, fun hgt => ?_⟩
  · rw [hok (by omega)]
    simp only [uploadExampleHandler]
    rw [if_pos (by rw [List.length_map]; omega)]
  · refine ⟨incoming.map (storeFile ts), List.length_map .., ?_⟩
    rw [hok (by omega)]
    simp only [uploadExampleHandler]
    rw [if_neg (by rw [List.length_map]; omega), if_neg (by rw [List.length_map]; omega)]
  · unfold uploadExamplePipeline multerArrayMyFiles
    rw [if_pos hgt]

/-- C1 amended witness: each of the three cases realized at a concrete
request — zero files, two files, four files. -/
theorem C1_upload_policy_witness :
    uploadExamplePipeline [] 9 =
      .ok { status := 200, body := .json uploadFailureJson } ∧
    (∃ files, files.length = 2 ∧
      uploadExamplePipeline [⟨"a.png", 1⟩, ⟨"b.png", 2⟩] 9 =
        .ok { status := 200, body := .json (uploadSuccessJson files) }) ∧
    uploadExamplePipeline [⟨"a.png", 1⟩, ⟨"b.png", 1⟩, ⟨"c.png", 1⟩, ⟨"d.png", 1⟩] 8
      = .error .LIMIT_UNEXPECTED_FILE :=
  ⟨(C1_upload_policy [] 9).1 rfl,
   (C1_upload_policy [⟨"a.png", 1⟩, ⟨"b.png", 2⟩] 9).2.1 (by decide) (by decide),
   (C1_upload_policy [⟨"a.png", 1⟩, ⟨"b.png", 1⟩, ⟨"c.png", 1⟩, ⟨"d.png", 1⟩] 8).2.2
     (by decide)⟩

end ExpressApp
